import Mathlib

/-!
Verification of the KICL mobile API client (`src/services/api.ts` and the
unnamed variant `src/unnamed/part_000`).

The client is a thin wrapper over `fetch`.  We embed it shallowly:

* A JavaScript runtime value returned by `response.json()` is modelled by
  the inductive `Json`.
* A thrown JavaScript error is modelled by `JsError`: every value thrown in
  this program (by `fetch`, `response.json()` or `new Error(...)`) is an
  `Error` object, whose `message` is always a string (possibly the empty
  string, which is the falsy case the `error.message || fallback` idiom
  tests for) and which is a `TypeError` or not (the `instanceof TypeError`
  test in `login`).
* The transport is a parameter: each operation takes the outcome of its
  `fetch` call(s) as an argument of type `Except JsError Response`, where
  `Except.error e` means the call rejected with `e`.  The effectful methods
  `response.json()` and `response.text()` are modelled by the fields
  `jsonResult` and `textResult` of `Response`.
* An operation's behaviour is an `OpTrace`: its returned/thrown outcome
  (`Except.ok` = the promise resolved with an `ApiResponse`, `Except.error`
  = an exception escaped across the public boundary) together with the list
  of requests it handed to `fetch`, in order.
* `Platform.OS` and `window.location.origin` and the resolved `API_URL`
  constant are bundled in `Env`; the browser branch is `platform = "web"`.
-/

/-- A JavaScript JSON value (result of `response.json()`). -/
inductive Json where
  | str (s : String)
  | num (n : Int)
  | bool (b : Bool)
  | null
  | arr (items : List Json)
  | obj (fields : List (String × Json))

/-- JS property lookup `j.k` on a parsed JSON value: defined (≠ undefined)
only on objects having the key. -/
def Json.getField : Json → String → Option Json
  | Json.obj fields, k => (fields.find? (fun p => p.1 == k)).map Prod.snd
  | _, _ => none

/-- JS truthiness of a JSON value (`false`, `0`, `""`, `null` are falsy). -/
def Json.truthy : Json → Bool
  | Json.str s => s ≠ ""
  | Json.num n => n ≠ 0
  | Json.bool b => b
  | Json.null => false
  | Json.arr _ => true
  | Json.obj _ => true

mutual

/-- JS string coercion `String(v)` of a JSON value, as performed by
`new Error(errorMessage)` when the message is not already a string. -/
def Json.jsToString : Json → String
  | Json.str s => s
  | Json.num n => toString n
  | Json.bool b => cond b "true" "false"
  | Json.null => "null"
  | Json.obj _ => "[object Object]"
  | Json.arr items => Json.jsToStringItems items

/-- `Array.prototype.toString`: comma-joined element coercions, `null`
rendered as the empty string. -/
def Json.jsToStringItems : List Json → String
  | [] => ""
  | [j] => Json.jsToStringItem j
  | j :: rest => Json.jsToStringItem j ++ "," ++ Json.jsToStringItems rest

/-- One array element inside `Array.prototype.toString`. -/
def Json.jsToStringItem : Json → String
  | Json.null => ""
  | Json.str s => s
  | Json.num n => toString n
  | Json.bool b => cond b "true" "false"
  | Json.obj _ => "[object Object]"
  | Json.arr items => Json.jsToStringItems items

end

/-- `pat` occurs at the head of `s`. -/
def charsMatchHead : List Char → List Char → Bool
  | [], _ => true
  | _ :: _, [] => false
  | a :: as, b :: bs => a == b && charsMatchHead as bs

/-- `pat` occurs somewhere in `s` (JS `String.prototype.includes`). -/
def charsHaveSub (pat : List Char) : List Char → Bool
  | [] => charsMatchHead pat []
  | c :: t => charsMatchHead pat (c :: t) || charsHaveSub pat t

/-- JS `s.includes(pat)`. -/
def strIncludes (s pat : String) : Bool :=
  charsHaveSub pat.data s.data

/-- A thrown JS value: always an `Error` in this program; `isTypeError`
models `instanceof TypeError`, `message` the (string) `.message`. -/
structure JsError where
  isTypeError : Bool
  message : String
deriving DecidableEq

/-- The `ApiResponse<T>` interface: `{ data?: T; error?: string }`. -/
structure ApiResponse (T : Type) where
  data : Option T
  error : Option String
deriving DecidableEq

/-- A `fetch` `Response` as consumed by `handleResponse`:
its status, its `content-type` header (`none` = header absent), and the
outcomes of its `json()` and `text()` methods. -/
structure Response where
  status : Nat
  contentType : Option String
  jsonResult : Except JsError Json
  textResult : String

/-- `response.ok`: status in the 2xx range. -/
def Response.okStatus (r : Response) : Bool :=
  200 ≤ r.status && r.status ≤ 299

/-- `contentType?.includes('application/json')` coerced to a boolean
(a missing header gives `undefined`, which is falsy). -/
def isJsonContentType : Option String → Bool
  | some ct => strIncludes ct "application/json"
  | none => false

/-- The local `data` of `handleResponse`: a parsed JSON value or the raw
text body. -/
inductive BodyData where
  | json (j : Json)
  | text (s : String)

/-- `data.message` inside `handleResponse` (undefined on a text body). -/
def BodyData.message : BodyData → Option Json
  | BodyData.json j => j.getField "message"
  | BodyData.text _ => none

/-- `handleResponse<T>` from both source files (they are identical): sniffs
the content type, reads the body (a JSON parse failure propagates as a
thrown error — the function's own try/catch only logs and rethrows), and on
a non-2xx status throws `new Error(m)` where `m` is the truthy `message`
field of a JSON body, else `"HTTP error! status: <code>"`; on a 2xx status
returns `{ data }`. -/
def handleResponse (response : Response) : Except JsError (ApiResponse BodyData) :=
  let isJson := isJsonContentType response.contentType
  let dataE : Except JsError BodyData :=
    if isJson then response.jsonResult.map BodyData.json
    else Except.ok (BodyData.text response.textResult)
  match dataE with
  | Except.error e => Except.error e
  | Except.ok data =>
    if !response.okStatus then
      let errorMessage :=
        match (if isJson then data.message else none) with
        | some m =>
          if m.truthy then m.jsToString
          else "HTTP error! status: " ++ toString response.status
        | none => "HTTP error! status: " ++ toString response.status
      Except.error ⟨false, errorMessage⟩
    else
      Except.ok ⟨some data, none⟩

/-- Ambient runtime data: `Platform.OS`, `window.location.origin`, and the
resolved `API_URL` constant. -/
structure Env where
  platform : String
  origin : String
  apiUrl : String
deriving DecidableEq

/-- The options object handed to `fetch`.  `none` models a property that is
absent or set to `undefined`; the body is kept as the structured value that
`JSON.stringify` receives. -/
structure RequestInit where
  method : String
  headers : Option (List (String × String))
  credentials : Option String
  mode : Option String
  body : Option Json

/-- One call handed to `fetch`: target URL plus options. -/
structure SentRequest where
  url : String
  options : RequestInit

/-- The headers object built by `login` / `resetPassword` / `verifyOTP`:
JSON content headers, plus `Origin` on the web platform. -/
def jsonHeaders (env : Env) : List (String × String) :=
  let base := [("Content-Type", "application/json"), ("Accept", "application/json")]
  if env.platform == "web" then base ++ [("Origin", env.origin)] else base

/-- The options the three operations pass to `fetch`: `credentials` is
always an explicit string (`'include'` on web, `'omit'` otherwise), while
`mode` is `'cors'` on web and `undefined` otherwise. -/
def postInit (env : Env) (body : Json) : RequestInit :=
  { method := "POST"
    headers := some (jsonHeaders env)
    credentials := some (if env.platform == "web" then "include" else "omit")
    mode := if env.platform == "web" then some "cors" else none
    body := some body }

/-- The HEAD probe sent by `checkServerConnection` (api.ts only): headers
are `undefined` off web, no `credentials` property at all, no body. -/
def checkRequest (env : Env) : SentRequest :=
  { url := env.apiUrl
    options :=
      { method := "HEAD"
        headers := if env.platform == "web" then some [("Origin", env.origin)] else none
        credentials := none
        mode := if env.platform == "web" then some "cors" else none
        body := none } }

/-- `checkServerConnection` (api.ts): `response.ok` of the probe, `false`
if the probe threw. -/
def checkServerConnection (probe : Except JsError Response) : Bool :=
  match probe with
  | Except.ok r => r.okStatus
  | Except.error _ => false

/-- An operation's observable behaviour: the settled outcome of its promise
(`Except.error` = an exception escaped to the caller) and the requests it
issued, in order. -/
structure OpTrace (T : Type) where
  result : Except JsError (ApiResponse T)
  sent : List SentRequest

/-- The catch block of `login` in `src/services/api.ts`: classify a thrown
error into the unreachable-network advisory (a `TypeError` whose message is
exactly `'Failed to fetch'`), the CORS advisory (message containing
`'NetworkError'` or `'Network request failed'`), or the error's own message
with a generic fallback when the message is empty. -/
def loginCatch (e : JsError) : ApiResponse BodyData :=
  if e.isTypeError && (e.message == "Failed to fetch") then
    ⟨none, some "Network error: Unable to reach the server. Please check your internet connection or ensure the server allows HTTPS connections."⟩
  else if strIncludes e.message "NetworkError" || strIncludes e.message "Network request failed" then
    ⟨none, some "Network error: The server is not accessible. This might be due to CORS configuration or SSL certificate issues."⟩
  else
    ⟨none, some (if e.message == "" then "An unexpected error occurred while trying to log in. Please try again." else e.message)⟩

/-- `login` from `src/services/api.ts`: probes the server with a HEAD
request (`checkServerConnection`); if unreachable, returns a fixed error
without POSTing; otherwise POSTs `{email, password}` to `/login` and feeds
the response to `handleResponse`; anything thrown inside the try block
(the POST itself or `handleResponse`) reaches the catch classifier.
`probe` and `post` are the outcomes of the two `fetch` calls. -/
def login (env : Env) (email password : String)
    (probe : Except JsError Response) (post : Except JsError Response) :
    OpTrace BodyData :=
  if !checkServerConnection probe then
    { result := Except.ok ⟨none, some "Unable to connect to the server. Please check your internet connection and try again."⟩
      sent := [checkRequest env] }
  else
    let req : SentRequest :=
      ⟨env.apiUrl ++ "/login",
       postInit env (Json.obj [("email", Json.str email), ("password", Json.str password)])⟩
    let tryResult : Except JsError (ApiResponse BodyData) :=
      match post with
      | Except.error e => Except.error e
      | Except.ok r => handleResponse r
    { result := Except.ok (match tryResult with
        | Except.ok res => res
        | Except.error e => loginCatch e)
      sent := [checkRequest env, req] }

/-- The catch block of `login` in `src/unnamed/part_000`: same three-way
shape, but only the `'NetworkError'` substring is tested and the two
advisory texts end differently. -/
def loginCatchV (e : JsError) : ApiResponse BodyData :=
  if e.isTypeError && (e.message == "Failed to fetch") then
    ⟨none, some "Network error: Unable to reach the server. Please check your internet connection or ensure the server allows requests from this domain."⟩
  else if strIncludes e.message "NetworkError" then
    ⟨none, some "Network error: The server is not accessible. This might be due to CORS configuration or network connectivity issues."⟩
  else
    ⟨none, some (if e.message == "" then "An unexpected error occurred while trying to log in. Please try again." else e.message)⟩

/-- `login` from `src/unnamed/part_000`: no connectivity probe; POSTs
`{email, password}` to `/login`, delegates to `handleResponse`, and
classifies anything thrown with `loginCatchV`. -/
def loginV (env : Env) (email password : String)
    (post : Except JsError Response) : OpTrace BodyData :=
  let req : SentRequest :=
    ⟨env.apiUrl ++ "/login",
     postInit env (Json.obj [("email", Json.str email), ("password", Json.str password)])⟩
  let tryResult : Except JsError (ApiResponse BodyData) :=
    match post with
    | Except.error e => Except.error e
    | Except.ok r => handleResponse r
  { result := Except.ok (match tryResult with
      | Except.ok res => res
      | Except.error e => loginCatchV e)
    sent := [req] }

/-- `resetPassword` from `src/services/api.ts`: POSTs `{email}` to
`/reset-password`, delegates to `handleResponse`, and on anything thrown
returns the thrown message, or `'Failed to connect to the server'` when
the message is empty. -/
def resetPassword (env : Env) (email : String)
    (post : Except JsError Response) : OpTrace BodyData :=
  let req : SentRequest :=
    ⟨env.apiUrl ++ "/reset-password", postInit env (Json.obj [("email", Json.str email)])⟩
  let tryResult : Except JsError (ApiResponse BodyData) :=
    match post with
    | Except.error e => Except.error e
    | Except.ok r => handleResponse r
  { result := Except.ok (match tryResult with
      | Except.ok res => res
      | Except.error e =>
        ⟨none, some (if e.message == "" then "Failed to connect to the server" else e.message)⟩)
    sent := [req] }

/-- `verifyOTP` from `src/services/api.ts`: POSTs `{email, otp}` to
`/verify-otp`; otherwise identical in shape to `resetPassword`. -/
def verifyOTP (env : Env) (email otp : String)
    (post : Except JsError Response) : OpTrace BodyData :=
  let req : SentRequest :=
    ⟨env.apiUrl ++ "/verify-otp",
     postInit env (Json.obj [("email", Json.str email), ("otp", Json.str otp)])⟩
  let tryResult : Except JsError (ApiResponse BodyData) :=
    match post with
    | Except.error e => Except.error e
    | Except.ok r => handleResponse r
  { result := Except.ok (match tryResult with
      | Except.ok res => res
      | Except.error e =>
        ⟨none, some (if e.message == "" then "Failed to connect to the server" else e.message)⟩)
    sent := [req] }

/-- `resetPassword` from `src/unnamed/part_000` (textually identical to the
api.ts version). -/
def resetPasswordV (env : Env) (email : String)
    (post : Except JsError Response) : OpTrace BodyData :=
  let req : SentRequest :=
    ⟨env.apiUrl ++ "/reset-password", postInit env (Json.obj [("email", Json.str email)])⟩
  let tryResult : Except JsError (ApiResponse BodyData) :=
    match post with
    | Except.error e => Except.error e
    | Except.ok r => handleResponse r
  { result := Except.ok (match tryResult with
      | Except.ok res => res
      | Except.error e =>
        ⟨none, some (if e.message == "" then "Failed to connect to the server" else e.message)⟩)
    sent := [req] }

/-- `verifyOTP` from `src/unnamed/part_000` (textually identical to the
api.ts version). -/
def verifyOTPV (env : Env) (email otp : String)
    (post : Except JsError Response) : OpTrace BodyData :=
  let req : SentRequest :=
    ⟨env.apiUrl ++ "/verify-otp",
     postInit env (Json.obj [("email", Json.str email), ("otp", Json.str otp)])⟩
  let tryResult : Except JsError (ApiResponse BodyData) :=
    match post with
    | Except.error e => Except.error e
    | Except.ok r => handleResponse r
  { result := Except.ok (match tryResult with
      | Except.ok res => res
      | Except.error e =>
        ⟨none, some (if e.message == "" then "Failed to connect to the server" else e.message)⟩)
    sent := [req] }

/-- The declared `LoginResponse` schema: `{token: string, user: {id, name,
email, role, branch_id: string}}`. -/
def isStringField (j : Json) (k : String) : Bool :=
  match j.getField k with
  | some (Json.str _) => true
  | _ => false

/-- Schema of the login payload. -/
def isLoginPayload (j : Json) : Bool :=
  isStringField j "token" &&
  (match j.getField "user" with
   | some u =>
     isStringField u "id" && isStringField u "name" && isStringField u "email" &&
     isStringField u "role" && isStringField u "branch_id"
   | none => false)

/-- Schema of the `{message: string}` payload of the other two operations. -/
def isMessagePayload (j : Json) : Bool :=
  isStringField j "message"

/-! ### Claim-level predicates -/

/-- An operation settled with a `Result` (no exception escaped). -/
def neverThrows (t : OpTrace BodyData) : Prop :=
  ∃ r, t.result = Except.ok r

/-- Exactly one variant of an `ApiResponse` is populated. -/
def exactlyOneVariant {T : Type} (r : ApiResponse T) : Prop :=
  (r.data.isSome = true ∧ r.error = none) ∨ (r.data = none ∧ r.error.isSome = true)

/-- The fetch options of every request of a trace omit the `credentials`
and `mode` fields entirely (the property claimed of the native branch). -/
def omitsCredentialsAndMode (t : OpTrace BodyData) : Prop :=
  ∀ q ∈ t.sent, q.options.credentials = none ∧ q.options.mode = none

/-! ### Sample data for concrete instantiations -/

/-- A native (non-web) runtime environment. -/
def sampleEnv : Env := ⟨"ios", "http://localhost", "https://devkicl.duckdns.org/api"⟩

/-- A 200 probe response. -/
def sampleProbe : Response := ⟨200, none, Except.ok Json.null, ""⟩

/-- A 401 JSON response carrying `{message: "Invalid credentials"}`. -/
def sampleR401 : Response :=
  ⟨401, some "application/json",
    Except.ok (Json.obj [("message", Json.str "Invalid credentials")]), ""⟩

/-- A 400 response with a non-JSON body. -/
def sampleR400 : Response := ⟨400, some "text/html", Except.ok Json.null, "bad request"⟩

/-- A well-formed login payload. -/
def sampleLoginPayload : Json :=
  Json.obj [("token", Json.str "t1"),
    ("user", Json.obj [("id", Json.str "1"), ("name", Json.str "A"),
      ("email", Json.str "a@b.com"), ("role", Json.str "staff"),
      ("branch_id", Json.str "5")])]

/-- A 200 JSON response carrying the login payload. -/
def sampleR200Login : Response :=
  ⟨200, some "application/json", Except.ok sampleLoginPayload, ""⟩

/-- A well-formed `{message}` payload. -/
def sampleMsgPayload : Json := Json.obj [("message", Json.str "OTP sent")]

/-- A 200 JSON response carrying the `{message}` payload. -/
def sampleR200Msg : Response :=
  ⟨200, some "application/json", Except.ok sampleMsgPayload, ""⟩

/-! ### Helper lemmas -/

lemma digitChar_ne_N : ∀ m : Nat, m < 10 → Nat.digitChar m ≠ 'N' := by decide

lemma charsMatchHead_head_notMem (a : Char) (rest s : List Char)
    (h : ∀ c ∈ s, c ≠ a) : charsMatchHead (a :: rest) s = false := by
  cases s with
  | nil => rfl
  | cons b bs =>
    have hb : (a == b) = false := by
      simpa [beq_eq_false_iff_ne] using (h b (List.mem_cons_self b bs)).symm
    simp [charsMatchHead, hb]

lemma charsHaveSub_head_notMem (a : Char) (rest s : List Char)
    (h : ∀ c ∈ s, c ≠ a) : charsHaveSub (a :: rest) s = false := by
  induction s with
  | nil => rfl
  | cons c t ih =>
    unfold charsHaveSub
    rw [charsMatchHead_head_notMem a rest (c :: t) h,
      ih (fun x hx => h x (List.mem_cons_of_mem c hx))]
    rfl

lemma toDigitsCore_ne_N (fuel : Nat) : ∀ (n : Nat) (acc : List Char),
    (∀ c ∈ acc, c ≠ 'N') → ∀ c ∈ Nat.toDigitsCore 10 fuel n acc, c ≠ 'N' := by
  induction fuel with
  | zero => intro n acc hacc; simpa [Nat.toDigitsCore] using hacc
  | succ f ih =>
    intro n acc hacc c hc
    have hd : Nat.digitChar (n % 10) ≠ 'N' :=
      digitChar_ne_N _ (Nat.mod_lt _ (by decide))
    by_cases h0 : n / 10 = 0
    · simp [Nat.toDigitsCore, h0] at hc
      rcases hc with h | h
      · exact h ▸ hd
      · exact hacc _ h
    · simp [Nat.toDigitsCore, h0] at hc
      refine ih _ _ ?_ c hc
      intro x hx
      rcases List.mem_cons.mp hx with h | h
      · exact h ▸ hd
      · exact hacc _ h

lemma toString_nat_ne_N (n : Nat) : ∀ c ∈ (toString n).data, c ≠ 'N' := by
  intro c hc
  exact toDigitsCore_ne_N (n + 1) n [] (by simp) c hc

lemma httpErrorMsg_no_networkError (n : Nat) :
    strIncludes ("HTTP error! status: " ++ toString n) "NetworkError" = false := by
  have hmem : ∀ c ∈ ("HTTP error! status: " ++ toString n).data, c ≠ 'N' := by
    intro c hc
    rcases List.mem_append.mp hc with h | h
    · revert h
      have : ∀ c ∈ "HTTP error! status: ".data, c ≠ 'N' := by decide
      exact this c
    · exact toString_nat_ne_N n c h
  exact charsHaveSub_head_notMem 'N' _ _ hmem

lemma httpErrorMsg_no_networkFailed (n : Nat) :
    strIncludes ("HTTP error! status: " ++ toString n) "Network request failed" = false := by
  have hmem : ∀ c ∈ ("HTTP error! status: " ++ toString n).data, c ≠ 'N' := by
    intro c hc
    rcases List.mem_append.mp hc with h | h
    · revert h
      have : ∀ c ∈ "HTTP error! status: ".data, c ≠ 'N' := by decide
      exact this c
    · exact toString_nat_ne_N n c h
  exact charsHaveSub_head_notMem 'N' _ _ hmem

lemma httpErrorMsg_ne_empty (n : Nat) :
    (("HTTP error! status: " ++ toString n) == "") = false := by
  rw [beq_eq_false_iff_ne]
  intro h
  have hlen := congrArg String.length h
  rw [String.length_append] at hlen
  have h20 : "HTTP error! status: ".length = 20 := by decide
  have h0 : ("" : String).length = 0 := rfl
  omega

lemma handleResponse_success (r : Response) (j : Json)
    (hok : r.okStatus = true) (hj : isJsonContentType r.contentType = true)
    (hp : r.jsonResult = Except.ok j) :
    handleResponse r = Except.ok ⟨some (BodyData.json j), none⟩ := by
  simp [handleResponse, Except.map, hj, hp, hok]

lemma handleResponse_msgField (r : Response) (j m : Json)
    (hok : r.okStatus = false) (hj : isJsonContentType r.contentType = true)
    (hp : r.jsonResult = Except.ok j) (hm : j.getField "message" = some m)
    (ht : m.truthy = true) :
    handleResponse r = Except.error ⟨false, m.jsToString⟩ := by
  simp [handleResponse, Except.map, BodyData.message, hj, hp, hok, hm, ht]

lemma handleResponse_statusMsg (r : Response)
    (hok : r.okStatus = false)
    (h : isJsonContentType r.contentType = false ∨
      ∃ j, r.jsonResult = Except.ok j ∧ ∀ m, j.getField "message" = some m → m.truthy = false) :
    handleResponse r = Except.error ⟨false, "HTTP error! status: " ++ toString r.status⟩ := by
  rcases h with h | ⟨j, hp, hm⟩
  · simp [handleResponse, h, hok]
  · by_cases hj : isJsonContentType r.contentType
    · cases hgf : j.getField "message" with
      | none => simp [handleResponse, Except.map, BodyData.message, hj, hp, hok, hgf]
      | some m =>
        have hmt := hm m hgf
        simp [handleResponse, Except.map, BodyData.message, hj, hp, hok, hgf, hmt]
    · simp [handleResponse, hj, hok]

lemma login_reachable_throws (env : Env) (email password : String) (pr : Response)
    (e : JsError) (hpr : pr.okStatus = true) :
    (login env email password (Except.ok pr) (Except.error e)).result =
      Except.ok (loginCatch e) := by
  simp [login, checkServerConnection, hpr]

lemma login_reachable_resp (env : Env) (email password : String) (pr r : Response)
    (hpr : pr.okStatus = true) :
    (login env email password (Except.ok pr) (Except.ok r)).result =
      Except.ok (match handleResponse r with
        | Except.ok res => res
        | Except.error e => loginCatch e) := by
  simp [login, checkServerConnection, hpr]

lemma loginV_throws (env : Env) (email password : String) (e : JsError) :
    (loginV env email password (Except.error e)).result = Except.ok (loginCatchV e) := rfl

lemma loginV_resp (env : Env) (email password : String) (r : Response) :
    (loginV env email password (Except.ok r)).result =
      Except.ok (match handleResponse r with
        | Except.ok res => res
        | Except.error e => loginCatchV e) := rfl

lemma loginCatch_notTypeErr (e : JsError) (h : e.isTypeError = false) :
    loginCatch e = ⟨none, some
      (if strIncludes e.message "NetworkError" || strIncludes e.message "Network request failed" then
        "Network error: The server is not accessible. This might be due to CORS configuration or SSL certificate issues."
      else if e.message == "" then
        "An unexpected error occurred while trying to log in. Please try again."
      else e.message)⟩ := by
  unfold loginCatch
  rw [h]
  simp only [Bool.false_and, if_neg (by simp : ¬ (false = true))]
  split
  · rfl
  · split <;> rfl

lemma handleResponse_parseErr (r : Response) (e : JsError)
    (hj : isJsonContentType r.contentType = true) (hp : r.jsonResult = Except.error e) :
    handleResponse r = Except.error e := by
  simp [handleResponse, Except.map, hj, hp]

lemma handleResponse_success_text (r : Response)
    (hok : r.okStatus = true) (hj : isJsonContentType r.contentType = false) :
    handleResponse r = Except.ok ⟨some (BodyData.text r.textResult), none⟩ := by
  simp [handleResponse, hj, hok]

lemma handleResponse_cases (r : Response) :
    (∃ e, handleResponse r = Except.error e) ∨
    (∃ d, handleResponse r = Except.ok ⟨some d, none⟩) := by
  by_cases hj : isJsonContentType r.contentType = true
  · cases hp : r.jsonResult with
    | error e => exact Or.inl ⟨e, handleResponse_parseErr r e hj hp⟩
    | ok j =>
      by_cases hok : r.okStatus = true
      · exact Or.inr ⟨BodyData.json j, handleResponse_success r j hok hj hp⟩
      · have hokf : r.okStatus = false := by simpa using hok
        cases hgf : j.getField "message" with
        | some m =>
          by_cases ht : m.truthy = true
          · exact Or.inl ⟨_, handleResponse_msgField r j m hokf hj hp hgf ht⟩
          · refine Or.inl ⟨_, handleResponse_statusMsg r hokf (Or.inr ⟨j, hp, ?_⟩)⟩
            intro mm hmm
            rw [hgf] at hmm
            cases hmm
            simpa using ht
        | none =>
          refine Or.inl ⟨_, handleResponse_statusMsg r hokf (Or.inr ⟨j, hp, ?_⟩)⟩
          intro mm hmm
          rw [hgf] at hmm
          cases hmm
  · have hjf : isJsonContentType r.contentType = false := by simpa using hj
    by_cases hok : r.okStatus = true
    · exact Or.inr ⟨BodyData.text r.textResult, handleResponse_success_text r hok hjf⟩
    · have hokf : r.okStatus = false := by simpa using hok
      exact Or.inl ⟨_, handleResponse_statusMsg r hokf (Or.inl hjf)⟩

lemma handleResponse_exactlyOne (r : Response) (res : ApiResponse BodyData)
    (h : handleResponse r = Except.ok res) : exactlyOneVariant res := by
  rcases handleResponse_cases r with ⟨e, he⟩ | ⟨d, hd⟩
  · rw [he] at h
    exact absurd h (by simp)
  · rw [hd] at h
    simp only [Except.ok.injEq] at h
    subst h
    exact Or.inl ⟨rfl, rfl⟩

lemma loginCatch_exactlyOne (e : JsError) : exactlyOneVariant (loginCatch e) := by
  unfold loginCatch
  split
  · exact Or.inr ⟨rfl, rfl⟩
  · split
    · exact Or.inr ⟨rfl, rfl⟩
    · exact Or.inr ⟨rfl, rfl⟩

lemma loginCatchV_exactlyOne (e : JsError) : exactlyOneVariant (loginCatchV e) := by
  unfold loginCatchV
  split
  · exact Or.inr ⟨rfl, rfl⟩
  · split
    · exact Or.inr ⟨rfl, rfl⟩
    · exact Or.inr ⟨rfl, rfl⟩

lemma handler_then_catch_exactlyOne (post : Except JsError Response)
    (k : JsError → ApiResponse BodyData) (hk : ∀ e, exactlyOneVariant (k e)) :
    exactlyOneVariant (match (match post with
      | Except.error e => Except.error e
      | Except.ok r => handleResponse r : Except JsError (ApiResponse BodyData)) with
      | Except.ok res => res
      | Except.error e => k e) := by
  cases post with
  | error e => exact hk e
  | ok r =>
    cases hh : handleResponse r with
    | error e => simp only [hh]; exact hk e
    | ok a => simp only [hh]; exact handleResponse_exactlyOne r a hh

/-! ### Claims -/

/-- C1: for every input and every outcome of the underlying transport call
(success, any HTTP response, or any thrown error), each public operation —
`login`, `resetPassword`, `verifyOTP`, in both source variants — resolves
with a `Result` value and never propagates an exception to its caller. -/
theorem c1_operations_always_return_result :
    ∀ (env : Env) (email password otp : String) (probe post : Except JsError Response),
      neverThrows (login env email password probe post) ∧
      neverThrows (loginV env email password post) ∧
      neverThrows (resetPassword env email post) ∧
      neverThrows (verifyOTP env email otp post) ∧
      neverThrows (resetPasswordV env email post) ∧
      neverThrows (verifyOTPV env email otp post) := by
  intro env email password otp probe post
  refine ⟨?_, ⟨_, rfl⟩, ⟨_, rfl⟩, ⟨_, rfl⟩, ⟨_, rfl⟩, ⟨_, rfl⟩⟩
  unfold neverThrows login
  split
  · exact ⟨_, rfl⟩
  · exact ⟨_, rfl⟩

/-- C6: a thrown transport error with message `M` during `resetPassword` or
`verifyOTP` (either variant) yields `Failure(M)` verbatim, with the generic
`'Failed to connect to the server'` only when the message is empty; no
network-heuristic special-casing is applied. -/
theorem c6_reset_verify_thrown_message_verbatim :
    ∀ (env : Env) (email otp : String) (e : JsError),
      (resetPassword env email (Except.error e)).result =
        Except.ok ⟨none, some (if e.message == "" then "Failed to connect to the server" else e.message)⟩ ∧
      (verifyOTP env email otp (Except.error e)).result =
        Except.ok ⟨none, some (if e.message == "" then "Failed to connect to the server" else e.message)⟩ ∧
      (resetPasswordV env email (Except.error e)).result =
        Except.ok ⟨none, some (if e.message == "" then "Failed to connect to the server" else e.message)⟩ ∧
      (verifyOTPV env email otp (Except.error e)).result =
        Except.ok ⟨none, some (if e.message == "" then "Failed to connect to the server" else e.message)⟩ := by
  intro env email otp e
  exact ⟨rfl, rfl, rfl, rfl⟩

/-- C9: in the api.ts variant, `login` first issues the HEAD probe; when the
probe throws or returns a non-ok status, `login` returns the fixed
unreachable-server message and never issues the POST to `/login` (the only
request sent is the HEAD probe). -/
theorem c9_probe_gate_blocks_post :
    ∀ (env : Env) (email password : String) (post : Except JsError Response)
      (e : JsError) (pr : Response),
      ((login env email password (Except.error e) post).result =
          Except.ok ⟨none, some "Unable to connect to the server. Please check your internet connection and try again."⟩ ∧
        (login env email password (Except.error e) post).sent = [checkRequest env]) ∧
      (pr.okStatus = false →
        (login env email password (Except.ok pr) post).result =
            Except.ok ⟨none, some "Unable to connect to the server. Please check your internet connection and try again."⟩ ∧
          (login env email password (Except.ok pr) post).sent = [checkRequest env]) ∧
      (checkRequest env).options.method = "HEAD" ∧
      (checkRequest env).options.method ≠ "POST" ∧
      (checkRequest env).url ≠ env.apiUrl ++ "/login" := by
  intro env email password post e pr
  refine ⟨⟨rfl, rfl⟩, ?_, rfl, by simp [checkRequest], ?_⟩
  · intro hpr
    constructor
    · simp [login, checkServerConnection, hpr]
    · simp [login, checkServerConnection, hpr]
  · show env.apiUrl ≠ env.apiUrl ++ "/login"
    intro h
    have hlen := congrArg String.length h
    rw [String.length_append] at hlen
    have h6 : ("/login" : String).length = 6 := by decide
    omega

/-- C10: the `resetPassword` and `verifyOTP` operations of the two source
variants are behaviourally equivalent: same `Result` and same requests for
every input and transport outcome. -/
theorem c10_reset_verify_variants_equivalent :
    ∀ (env : Env) (email otp : String) (post : Except JsError Response),
      resetPassword env email post = resetPasswordV env email post ∧
      verifyOTP env email otp post = verifyOTPV env email otp post := by
  intro env email otp post
  exact ⟨rfl, rfl⟩

/-- C2 fails as stated: a 401 JSON response whose body has the message
field `""` (a message field whose value is the empty string) yields
`Failure("HTTP error! status: 401")`, not `Failure("")` as the claim
requires for a body with a message field. -/
theorem c2_counterexample :
    (resetPassword ⟨"ios", "o", "u"⟩ "a@b.com"
        (Except.ok ⟨401, some "application/json",
          Except.ok (Json.obj [("message", Json.str "")]), ""⟩)).result =
      Except.ok ⟨none, some "HTTP error! status: 401"⟩ ∧
    ("HTTP error! status: 401" : String) ≠ "" := by
  exact ⟨rfl, by decide⟩

/-- C2 (amended): for a completed non-2xx exchange whose body was read
without a parse error: a JSON body whose message field is a non-empty
string `X` yields `Failure(X)` for `resetPassword` and `verifyOTP` (both
variants); `login` returns `Failure(X)` provided `X` does not contain the
network-heuristic substrings (its catch rewrites such messages); when the
content type is not JSON or the JSON body has no truthy message field,
every operation yields `Failure("HTTP error! status: <code>")` with the
actual status code. -/
theorem c2_amended_non2xx_message_derivation :
    (∀ (env : Env) (email otp : String) (r : Response) (j : Json) (X : String),
      r.okStatus = false → isJsonContentType r.contentType = true →
      r.jsonResult = Except.ok j → j.getField "message" = some (Json.str X) → X ≠ "" →
      (resetPassword env email (Except.ok r)).result = Except.ok ⟨none, some X⟩ ∧
      (verifyOTP env email otp (Except.ok r)).result = Except.ok ⟨none, some X⟩ ∧
      (resetPasswordV env email (Except.ok r)).result = Except.ok ⟨none, some X⟩ ∧
      (verifyOTPV env email otp (Except.ok r)).result = Except.ok ⟨none, some X⟩) ∧
    (∀ (env : Env) (email password : String) (pr r : Response) (j : Json) (X : String),
      pr.okStatus = true → r.okStatus = false → isJsonContentType r.contentType = true →
      r.jsonResult = Except.ok j → j.getField "message" = some (Json.str X) → X ≠ "" →
      strIncludes X "NetworkError" = false → strIncludes X "Network request failed" = false →
      (login env email password (Except.ok pr) (Except.ok r)).result = Except.ok ⟨none, some X⟩ ∧
      (loginV env email password (Except.ok r)).result = Except.ok ⟨none, some X⟩) ∧
    (∀ (env : Env) (email password otp : String) (pr r : Response),
      pr.okStatus = true → r.okStatus = false →
      (isJsonContentType r.contentType = false ∨
        ∃ j, r.jsonResult = Except.ok j ∧ ∀ m, j.getField "message" = some m → m.truthy = false) →
      (resetPassword env email (Except.ok r)).result =
          Except.ok ⟨none, some ("HTTP error! status: " ++ toString r.status)⟩ ∧
        (verifyOTP env email otp (Except.ok r)).result =
          Except.ok ⟨none, some ("HTTP error! status: " ++ toString r.status)⟩ ∧
        (resetPasswordV env email (Except.ok r)).result =
          Except.ok ⟨none, some ("HTTP error! status: " ++ toString r.status)⟩ ∧
        (verifyOTPV env email otp (Except.ok r)).result =
          Except.ok ⟨none, some ("HTTP error! status: " ++ toString r.status)⟩ ∧
        (login env email password (Except.ok pr) (Except.ok r)).result =
          Except.ok ⟨none, some ("HTTP error! status: " ++ toString r.status)⟩ ∧
        (loginV env email password (Except.ok r)).result =
          Except.ok ⟨none, some ("HTTP error! status: " ++ toString r.status)⟩) := by
  refine ⟨?_, ?_, ?_⟩
  · intro env email otp r j X hok hj hp hm hX
    have hne : (X == "") = false := beq_eq_false_iff_ne.mpr hX
    have hh := handleResponse_msgField r j (Json.str X) hok hj hp hm (by simpa [Json.truthy] using hX)
    rw [show (Json.str X).jsToString = X from rfl] at hh
    refine ⟨?_, ?_, ?_, ?_⟩ <;>
      simp [resetPassword, verifyOTP, resetPasswordV, verifyOTPV, hh, hne]
  · intro env email password pr r j X hpr hok hj hp hm hX hs1 hs2
    have hne : (X == "") = false := beq_eq_false_iff_ne.mpr hX
    have hh := handleResponse_msgField r j (Json.str X) hok hj hp hm (by simpa [Json.truthy] using hX)
    rw [show (Json.str X).jsToString = X from rfl] at hh
    constructor
    · rw [login_reachable_resp env email password pr r hpr, hh]
      simp [loginCatch, hs1, hs2, hne]
    · rw [loginV_resp, hh]
      simp [loginCatchV, hs1, hne]
  · intro env email password otp pr r hpr hok hcond
    have hh := handleResponse_statusMsg r hok hcond
    refine ⟨?_, ?_, ?_, ?_, ?_, ?_⟩
    · simp [resetPassword, hh, httpErrorMsg_ne_empty]
    · simp [verifyOTP, hh, httpErrorMsg_ne_empty]
    · simp [resetPasswordV, hh, httpErrorMsg_ne_empty]
    · simp [verifyOTPV, hh, httpErrorMsg_ne_empty]
    · rw [login_reachable_resp env email password pr r hpr, hh]
      simp [loginCatch, httpErrorMsg_no_networkError, httpErrorMsg_no_networkFailed,
        httpErrorMsg_ne_empty]
    · rw [loginV_resp, hh]
      simp [loginCatchV, httpErrorMsg_no_networkError, httpErrorMsg_ne_empty]

/-- Concrete instances of the amended C2: a 401 `{message: "Invalid
credentials"}` body yields that message for every operation, and a non-JSON
400 body yields the synthesized status message. -/
theorem c2_amended_non2xx_message_derivation_witness :
    ((resetPassword sampleEnv "a@b.com" (Except.ok sampleR401)).result =
        Except.ok ⟨none, some "Invalid credentials"⟩ ∧
      (verifyOTP sampleEnv "a@b.com" "000000" (Except.ok sampleR401)).result =
        Except.ok ⟨none, some "Invalid credentials"⟩ ∧
      (resetPasswordV sampleEnv "a@b.com" (Except.ok sampleR401)).result =
        Except.ok ⟨none, some "Invalid credentials"⟩ ∧
      (verifyOTPV sampleEnv "a@b.com" "000000" (Except.ok sampleR401)).result =
        Except.ok ⟨none, some "Invalid credentials"⟩) ∧
    ((login sampleEnv "a@b.com" "wrong" (Except.ok sampleProbe) (Except.ok sampleR401)).result =
        Except.ok ⟨none, some "Invalid credentials"⟩ ∧
      (loginV sampleEnv "a@b.com" "wrong" (Except.ok sampleR401)).result =
        Except.ok ⟨none, some "Invalid credentials"⟩) ∧
    ((resetPassword sampleEnv "a@b.com" (Except.ok sampleR400)).result =
        Except.ok ⟨none, some ("HTTP error! status: " ++ toString sampleR400.status)⟩ ∧
      (verifyOTP sampleEnv "a@b.com" "000000" (Except.ok sampleR400)).result =
        Except.ok ⟨none, some ("HTTP error! status: " ++ toString sampleR400.status)⟩ ∧
      (resetPasswordV sampleEnv "a@b.com" (Except.ok sampleR400)).result =
        Except.ok ⟨none, some ("HTTP error! status: " ++ toString sampleR400.status)⟩ ∧
      (verifyOTPV sampleEnv "a@b.com" "000000" (Except.ok sampleR400)).result =
        Except.ok ⟨none, some ("HTTP error! status: " ++ toString sampleR400.status)⟩ ∧
      (login sampleEnv "a@b.com" "pw" (Except.ok sampleProbe) (Except.ok sampleR400)).result =
        Except.ok ⟨none, some ("HTTP error! status: " ++ toString sampleR400.status)⟩ ∧
      (loginV sampleEnv "a@b.com" "pw" (Except.ok sampleR400)).result =
        Except.ok ⟨none, some ("HTTP error! status: " ++ toString sampleR400.status)⟩) :=
  ⟨c2_amended_non2xx_message_derivation.1 sampleEnv "a@b.com" "000000" sampleR401
      (Json.obj [("message", Json.str "Invalid credentials")]) "Invalid credentials"
      (by decide) (by decide) rfl rfl (by decide),
   c2_amended_non2xx_message_derivation.2.1 sampleEnv "a@b.com" "wrong" sampleProbe sampleR401
      (Json.obj [("message", Json.str "Invalid credentials")]) "Invalid credentials"
      (by decide) (by decide) (by decide) rfl rfl (by decide) (by decide) (by decide),
   c2_amended_non2xx_message_derivation.2.2 sampleEnv "a@b.com" "pw" "000000" sampleProbe
      sampleR400 (by decide) (by decide) (Or.inl (by decide))⟩

/-- C3: a 2xx response whose content type indicates JSON and whose body
parses as the declared payload schema yields `Success` carrying that parsed
payload unchanged (structural round-trip), for every operation of both
variants. -/
theorem c3_success_roundtrip :
    (∀ (env : Env) (email password : String) (pr r : Response) (j : Json),
      pr.okStatus = true → r.okStatus = true →
      isJsonContentType r.contentType = true → r.jsonResult = Except.ok j →
      isLoginPayload j = true →
      (login env email password (Except.ok pr) (Except.ok r)).result =
          Except.ok ⟨some (BodyData.json j), none⟩ ∧
        (loginV env email password (Except.ok r)).result =
          Except.ok ⟨some (BodyData.json j), none⟩) ∧
    (∀ (env : Env) (email otp : String) (r : Response) (j : Json),
      r.okStatus = true → isJsonContentType r.contentType = true →
      r.jsonResult = Except.ok j → isMessagePayload j = true →
      (resetPassword env email (Except.ok r)).result = Except.ok ⟨some (BodyData.json j), none⟩ ∧
      (verifyOTP env email otp (Except.ok r)).result = Except.ok ⟨some (BodyData.json j), none⟩ ∧
      (resetPasswordV env email (Except.ok r)).result = Except.ok ⟨some (BodyData.json j), none⟩ ∧
      (verifyOTPV env email otp (Except.ok r)).result = Except.ok ⟨some (BodyData.json j), none⟩) := by
  constructor
  · intro env email password pr r j hpr hok hj hp _
    have hh := handleResponse_success r j hok hj hp
    constructor
    · rw [login_reachable_resp env email password pr r hpr, hh]
    · rw [loginV_resp, hh]
  · intro env email otp r j hok hj hp _
    have hh := handleResponse_success r j hok hj hp
    refine ⟨?_, ?_, ?_, ?_⟩ <;>
      simp [resetPassword, verifyOTP, resetPasswordV, verifyOTPV, hh]

/-- C4: a value thrown during login's transport call is classified by
exactly the three-case function shown: a `TypeError` with message exactly
`'Failed to fetch'` gives the fixed unreachable-network advisory; else a
message containing `'NetworkError'` (api.ts also `'Network request
failed'`) gives the fixed CORS advisory, a distinct text; else the thrown
message itself, or the generic fallback when the message is empty. -/
theorem c4_login_thrown_error_classification :
    ∀ (env : Env) (email password : String) (pr : Response) (e : JsError),
      pr.okStatus = true →
      (login env email password (Except.ok pr) (Except.error e)).result =
        Except.ok ⟨none, some
          (if e.isTypeError && (e.message == "Failed to fetch") then
            "Network error: Unable to reach the server. Please check your internet connection or ensure the server allows HTTPS connections."
          else if strIncludes e.message "NetworkError" || strIncludes e.message "Network request failed" then
            "Network error: The server is not accessible. This might be due to CORS configuration or SSL certificate issues."
          else if e.message == "" then
            "An unexpected error occurred while trying to log in. Please try again."
          else e.message)⟩ ∧
      (loginV env email password (Except.error e)).result =
        Except.ok ⟨none, some
          (if e.isTypeError && (e.message == "Failed to fetch") then
            "Network error: Unable to reach the server. Please check your internet connection or ensure the server allows requests from this domain."
          else if strIncludes e.message "NetworkError" then
            "Network error: The server is not accessible. This might be due to CORS configuration or network connectivity issues."
          else if e.message == "" then
            "An unexpected error occurred while trying to log in. Please try again."
          else e.message)⟩ ∧
      ("Network error: Unable to reach the server. Please check your internet connection or ensure the server allows HTTPS connections." ≠
        "Network error: The server is not accessible. This might be due to CORS configuration or SSL certificate issues.") ∧
      ("Network error: Unable to reach the server. Please check your internet connection or ensure the server allows requests from this domain." ≠
        "Network error: The server is not accessible. This might be due to CORS configuration or network connectivity issues.") := by
  intro env email password pr e hpr
  refine ⟨?_, ?_, by decide, by decide⟩
  · rw [login_reachable_throws env email password pr e hpr]
    unfold loginCatch
    split
    · rfl
    · split
      · rfl
      · split <;> rfl
  · rw [loginV_throws]
    unfold loginCatchV
    split
    · rfl
    · split
      · rfl
      · split <;> rfl

/-- C8: every `Result` produced by any of the operations (both variants)
has exactly one variant populated: the payload present and the error
absent, or the error present and the payload absent. -/
theorem c8_result_has_exactly_one_variant :
    ∀ (env : Env) (email password otp : String) (probe post : Except JsError Response)
      (res : ApiResponse BodyData),
      ((login env email password probe post).result = Except.ok res → exactlyOneVariant res) ∧
      ((loginV env email password post).result = Except.ok res → exactlyOneVariant res) ∧
      ((resetPassword env email post).result = Except.ok res → exactlyOneVariant res) ∧
      ((verifyOTP env email otp post).result = Except.ok res → exactlyOneVariant res) ∧
      ((resetPasswordV env email post).result = Except.ok res → exactlyOneVariant res) ∧
      ((verifyOTPV env email otp post).result = Except.ok res → exactlyOneVariant res) := by
  intro env email password otp probe post res
  refine ⟨?_, ?_, ?_, ?_, ?_, ?_⟩
  · intro h
    unfold login at h
    split at h
    · simp only [Except.ok.injEq] at h
      subst h
      exact Or.inr ⟨rfl, rfl⟩
    · simp only [Except.ok.injEq] at h
      subst h
      exact handler_then_catch_exactlyOne post loginCatch loginCatch_exactlyOne
  · intro h
    simp only [loginV, Except.ok.injEq] at h
    subst h
    exact handler_then_catch_exactlyOne post loginCatchV loginCatchV_exactlyOne
  · intro h
    simp only [resetPassword, Except.ok.injEq] at h
    subst h
    exact handler_then_catch_exactlyOne post _ (fun e => Or.inr ⟨rfl, rfl⟩)
  · intro h
    simp only [verifyOTP, Except.ok.injEq] at h
    subst h
    exact handler_then_catch_exactlyOne post _ (fun e => Or.inr ⟨rfl, rfl⟩)
  · intro h
    simp only [resetPasswordV, Except.ok.injEq] at h
    subst h
    exact handler_then_catch_exactlyOne post _ (fun e => Or.inr ⟨rfl, rfl⟩)
  · intro h
    simp only [verifyOTPV, Except.ok.injEq] at h
    subst h
    exact handler_then_catch_exactlyOne post _ (fun e => Or.inr ⟨rfl, rfl⟩)

/-- C5 fails as stated: in a completed HTTP exchange (probe ok, POST
returned a 500 JSON response with `{message: "NetworkError"}`), login's
three-way classification is applied to the error thrown by the response
handler, replacing the handler-derived message by the CORS advisory. -/
theorem c5_counterexample :
    (login ⟨"ios", "o", "u"⟩ "e" "p" (Except.ok ⟨200, none, Except.ok Json.null, ""⟩)
        (Except.ok ⟨500, some "application/json",
          Except.ok (Json.obj [("message", Json.str "NetworkError")]), ""⟩)).result =
      Except.ok ⟨none, some "Network error: The server is not accessible. This might be due to CORS configuration or SSL certificate issues."⟩ ∧
    handleResponse ⟨500, some "application/json",
        Except.ok (Json.obj [("message", Json.str "NetworkError")]), ""⟩ =
      Except.error ⟨false, "NetworkError"⟩ ∧
    ("Network error: The server is not accessible. This might be due to CORS configuration or SSL certificate issues." : String) ≠ "NetworkError" := by
  exact ⟨rfl, rfl, by decide⟩

/-- C5 (amended): login's classification is applied to everything thrown
inside its try block, including the `Error` thrown by the response handler
for a completed non-2xx exchange.  The handler-derived message `m` is
replaced by the CORS advisory when it contains `'NetworkError'` or
`'Network request failed'`, by the generic fallback when it is empty, and
is passed through verbatim otherwise; the `TypeError` branch can never fire
for a handler-thrown error. -/
theorem c5_amended_classification_reaches_handler_errors :
    ∀ (env : Env) (email password : String) (pr r : Response) (m : String),
      pr.okStatus = true →
      handleResponse r = Except.error ⟨false, m⟩ →
      (login env email password (Except.ok pr) (Except.ok r)).result =
        Except.ok ⟨none, some
          (if strIncludes m "NetworkError" || strIncludes m "Network request failed" then
            "Network error: The server is not accessible. This might be due to CORS configuration or SSL certificate issues."
          else if m == "" then
            "An unexpected error occurred while trying to log in. Please try again."
          else m)⟩ := by
  intro env email password pr r m hpr hh
  rw [login_reachable_resp env email password pr r hpr, hh]
  exact congrArg Except.ok (loginCatch_notTypeErr ⟨false, m⟩ rfl)

/-- Concrete instance of the amended C5: the handler-thrown
`"Invalid credentials"` message passes through login's catch verbatim. -/
theorem c5_amended_classification_reaches_handler_errors_witness :
    (login sampleEnv "a@b.com" "wrong" (Except.ok sampleProbe) (Except.ok sampleR401)).result =
      Except.ok ⟨none, some "Invalid credentials"⟩ :=
  c5_amended_classification_reaches_handler_errors sampleEnv "a@b.com" "wrong"
    sampleProbe sampleR401 "Invalid credentials" (by decide) rfl

/-- C7 fails as stated: on a native platform the constructed POST options
set `credentials` to the explicit value `'omit'`; the field is not omitted. -/
theorem c7_counterexample :
    ¬ omitsCredentialsAndMode
        (resetPassword ⟨"ios", "o", "u"⟩ "a@b.com" (Except.error ⟨false, "x"⟩)) := by
  intro h
  have := h ⟨"u" ++ "/reset-password",
      postInit ⟨"ios", "o", "u"⟩ (Json.obj [("email", Json.str "a@b.com")])⟩
    (by simp [resetPassword])
  simp [postInit] at this

/-- C7 (amended): the platform branch of the constructed POST options: on
the web platform the Origin header is attached, credentials is `'include'`
and mode is `'cors'`; on a native platform no Origin header is added, the
mode property is left with no value (`undefined`), but credentials is set
to the explicit string `'omit'` rather than being omitted.  Every operation
sends exactly its `postInit` options to its endpoint (api.ts `login`
preceded by the HEAD probe when the probe succeeds). -/
theorem c7_amended_platform_branch :
    ∀ (env : Env) (b : Json) (email password otp : String)
      (pr : Response) (post : Except JsError Response),
      (postInit env b).credentials = some (if env.platform == "web" then "include" else "omit") ∧
      (postInit env b).mode = (if env.platform == "web" then some "cors" else none) ∧
      (postInit env b).headers = some (jsonHeaders env) ∧
      jsonHeaders env = (if env.platform == "web" then
          [("Content-Type", "application/json"), ("Accept", "application/json"),
            ("Origin", env.origin)]
        else [("Content-Type", "application/json"), ("Accept", "application/json")]) ∧
      (resetPassword env email post).sent =
        [⟨env.apiUrl ++ "/reset-password", postInit env (Json.obj [("email", Json.str email)])⟩] ∧
      (verifyOTP env email otp post).sent =
        [⟨env.apiUrl ++ "/verify-otp",
          postInit env (Json.obj [("email", Json.str email), ("otp", Json.str otp)])⟩] ∧
      (loginV env email password post).sent =
        [⟨env.apiUrl ++ "/login",
          postInit env (Json.obj [("email", Json.str email), ("password", Json.str password)])⟩] ∧
      (pr.okStatus = true →
        (login env email password (Except.ok pr) post).sent =
          [checkRequest env,
            ⟨env.apiUrl ++ "/login",
              postInit env (Json.obj [("email", Json.str email), ("password", Json.str password)])⟩]) := by
  intro env b email password otp pr post
  refine ⟨rfl, rfl, rfl, ?_, rfl, rfl, rfl, ?_⟩
  · unfold jsonHeaders
    split <;> rfl
  · intro hpr
    simp [login, checkServerConnection, hpr]

/-- Concrete instance of the amended C7 on the native sample environment. -/
theorem c7_amended_platform_branch_witness :
    (postInit sampleEnv Json.null).credentials = some "omit" ∧
    (postInit sampleEnv Json.null).mode = none ∧
    (login sampleEnv "a" "p" (Except.ok sampleProbe) (Except.error ⟨false, "x"⟩)).sent =
      [checkRequest sampleEnv,
        ⟨sampleEnv.apiUrl ++ "/login",
          postInit sampleEnv (Json.obj [("email", Json.str "a"), ("password", Json.str "p")])⟩] := by
  obtain ⟨h1, h2, h3, h4, h5, h6, h7, h8⟩ :=
    c7_amended_platform_branch sampleEnv Json.null "a" "p" "o" sampleProbe
      (Except.error ⟨false, "x"⟩)
  exact ⟨h1, h2, h8 (by decide)⟩

/-- Concrete instance of C3: the 200 login payload and the 200 message
payload round-trip unchanged through every operation. -/
theorem c3_success_roundtrip_witness :
    ((login sampleEnv "a@b.com" "secret" (Except.ok sampleProbe) (Except.ok sampleR200Login)).result =
        Except.ok ⟨some (BodyData.json sampleLoginPayload), none⟩ ∧
      (loginV sampleEnv "a@b.com" "secret" (Except.ok sampleR200Login)).result =
        Except.ok ⟨some (BodyData.json sampleLoginPayload), none⟩) ∧
    ((resetPassword sampleEnv "a@b.com" (Except.ok sampleR200Msg)).result =
        Except.ok ⟨some (BodyData.json sampleMsgPayload), none⟩ ∧
      (verifyOTP sampleEnv "a@b.com" "000000" (Except.ok sampleR200Msg)).result =
        Except.ok ⟨some (BodyData.json sampleMsgPayload), none⟩ ∧
      (resetPasswordV sampleEnv "a@b.com" (Except.ok sampleR200Msg)).result =
        Except.ok ⟨some (BodyData.json sampleMsgPayload), none⟩ ∧
      (verifyOTPV sampleEnv "a@b.com" "000000" (Except.ok sampleR200Msg)).result =
        Except.ok ⟨some (BodyData.json sampleMsgPayload), none⟩) :=
  ⟨c3_success_roundtrip.1 sampleEnv "a@b.com" "secret" sampleProbe sampleR200Login
      sampleLoginPayload (by decide) (by decide) (by decide) rfl (by decide),
    c3_success_roundtrip.2 sampleEnv "a@b.com" "000000" sampleR200Msg sampleMsgPayload
      (by decide) (by decide) rfl (by decide)⟩

/-- Concrete instance of C4: a `TypeError` with message exactly
`'Failed to fetch'` thrown during the POST yields the two variants' fixed
unreachable-network advisories. -/
theorem c4_login_thrown_error_classification_witness :
    sampleProbe.okStatus = true ∧
    ((login sampleEnv "a" "p" (Except.ok sampleProbe)
          (Except.error ⟨true, "Failed to fetch"⟩)).result =
        Except.ok ⟨none, some "Network error: Unable to reach the server. Please check your internet connection or ensure the server allows HTTPS connections."⟩ ∧
      (loginV sampleEnv "a" "p" (Except.error ⟨true, "Failed to fetch"⟩)).result =
        Except.ok ⟨none, some "Network error: Unable to reach the server. Please check your internet connection or ensure the server allows requests from this domain."⟩ ∧
      ("Network error: Unable to reach the server. Please check your internet connection or ensure the server allows HTTPS connections." ≠
        "Network error: The server is not accessible. This might be due to CORS configuration or SSL certificate issues.") ∧
      ("Network error: Unable to reach the server. Please check your internet connection or ensure the server allows requests from this domain." ≠
        "Network error: The server is not accessible. This might be due to CORS configuration or network connectivity issues.")) :=
  ⟨by decide,
    c4_login_thrown_error_classification sampleEnv "a" "p" sampleProbe
      ⟨true, "Failed to fetch"⟩ (by decide)⟩

/-- Concrete instance of C8: a successful login's result has only the
payload populated. -/
theorem c8_result_has_exactly_one_variant_witness :
    exactlyOneVariant (⟨some (BodyData.json sampleLoginPayload), none⟩ : ApiResponse BodyData) :=
  (c8_result_has_exactly_one_variant sampleEnv "a@b.com" "pw" "000000"
      (Except.ok sampleProbe) (Except.ok sampleR200Login)
      ⟨some (BodyData.json sampleLoginPayload), none⟩).1 rfl

/-- Concrete instance of C9: a 500 probe response blocks the POST and
yields the fixed unreachable-server message. -/
theorem c9_probe_gate_blocks_post_witness :
    (login sampleEnv "a@b.com" "pw" (Except.ok ⟨500, none, Except.ok Json.null, ""⟩)
        (Except.error ⟨false, "x"⟩)).result =
      Except.ok ⟨none, some "Unable to connect to the server. Please check your internet connection and try again."⟩ ∧
    (login sampleEnv "a@b.com" "pw" (Except.ok ⟨500, none, Except.ok Json.null, ""⟩)
        (Except.error ⟨false, "x"⟩)).sent = [checkRequest sampleEnv] :=
  (c9_probe_gate_blocks_post sampleEnv "a@b.com" "pw" (Except.error ⟨false, "x"⟩)
      ⟨false, "x"⟩ ⟨500, none, Except.ok Json.null, ""⟩).2.1 (by decide)
